import Mathlib

/-!
A shallow embedding of the SMTP/LMTP connection engine (`conn.go`) of
gulucn/go-smtp, together with theorems settling the specification claims.

Each Go function of `conn.go` is translated to a Lean definition under the
same name.  Per-connection mutable state (`Conn`) is threaded explicitly;
calls to `c.WriteResponse`, `c.Close` and the envelope-state assignments are
recorded as an explicit event list so that traces of connections can be
reasoned about.  External collaborators (the backend, the session, the SASL
mechanism, the TLS handshake) are oracles supplied per command step.
-/

namespace GoSmtp

/-! ## String helpers mirroring the Go standard library functions used

All of them recurse structurally over the character list, so concrete runs
of the engine evaluate inside the kernel.  Go indexes strings by bytes; the
protocol text handled here is ASCII, where bytes and characters coincide. -/

/-- `strings.ToUpper` (ASCII). -/
def toUpperStr (s : String) : String :=
  String.mk (s.data.map Char.toUpper)

/-- `s[0:n]` — the first `n` characters. -/
def strTake (s : String) (n : Nat) : String :=
  String.mk (s.data.take n)

/-- `s[n:]` — the characters from position `n` on. -/
def strDrop (s : String) (n : Nat) : String :=
  String.mk (s.data.drop n)

/-- `strings.HasPrefix`. -/
def startsWithStr (s pre : String) : Bool :=
  decide (s.data.take pre.data.length = pre.data)

/-- `strings.HasSuffix`. -/
def endsWithStr (s suf : String) : Bool :=
  decide (s.data.drop (s.data.length - suf.data.length) = suf.data ∧
    suf.data.length ≤ s.data.length)

/-- `strings.Trim s cutset`: removes leading and trailing characters
contained in `cut`. -/
def trimCutset (s : String) (cut : List Char) : String :=
  let l := s.data.dropWhile (fun c => cut.contains c)
  String.mk ((l.reverse.dropWhile (fun c => cut.contains c)).reverse)

/-- Splits a character list at every character satisfying `p`, keeping empty
segments (the splitting behaviour of `strings.Split` for a one-character
separator when `p` tests for that character). -/
def splitPredAux (p : Char → Bool) : List Char → List (List Char)
  | [] => [[]]
  | c :: rest =>
    let r := splitPredAux p rest
    if p c then [] :: r
    else (c :: r.headD []) :: r.tail

/-- `strings.Split s sep` for a one-character separator. -/
def splitOnChar (sep : Char) (s : String) : List String :=
  (splitPredAux (fun c => c = sep) s.data).map String.mk

/-- `strings.Fields`: splits around runs of whitespace, dropping empty
fields. -/
def strFields (s : String) : List String :=
  ((splitPredAux Char.isWhitespace s.data).map String.mk).filter (fun t => t ≠ "")

/-- `strconv.ParseInt(s, 10, 32)`: optional sign, decimal digits, 32-bit
range; `none` models a parse error. -/
def parseInt32 (s : String) : Option Int :=
  let core : Int × List Char :=
    match s.data with
    | '-' :: rest => (-1, rest)
    | '+' :: rest => (1, rest)
    | l => (1, l)
  if core.2 = [] ∨ ¬core.2.all Char.isDigit then none
  else
    let v : Int := core.1 * ((core.2.foldl (fun n c => n * 10 + (c.toNat - 48)) 0 : Nat) : Int)
    if v < -(2 ^ 31) ∨ v > 2 ^ 31 - 1 then none else some v

/-! ## base64 (models `encoding/base64` StdEncoding as used by `handleAuth`) -/

/-- Index of a character in the standard base64 alphabet. -/
def b64Idx (c : Char) : Option Nat :=
  if 'A' ≤ c ∧ c ≤ 'Z' then some (c.toNat - 65)
  else if 'a' ≤ c ∧ c ≤ 'z' then some (c.toNat - 97 + 26)
  else if '0' ≤ c ∧ c ≤ '9' then some (c.toNat - 48 + 52)
  else if c = '+' then some 62
  else if c = '/' then some 63
  else none

/-- Standard (padded) base64 decoding on the character list: four-character
quanta, `=` padding allowed only in the final quantum; any other shape is a
decode error (`none`), as in `base64.StdEncoding.DecodeString`. -/
def base64DecodeAux : List Char → Option (List Nat)
  | [] => some []
  | c0 :: c1 :: c2 :: c3 :: rest => do
    let i0 ← b64Idx c0
    let i1 ← b64Idx c1
    if c2 = '=' then
      if c3 = '=' ∧ rest = [] then some [i0 * 4 + i1 / 16] else none
    else do
      let i2 ← b64Idx c2
      if c3 = '=' then
        if rest = [] then some [i0 * 4 + i1 / 16, (i1 % 16) * 16 + i2 / 4] else none
      else do
        let i3 ← b64Idx c3
        let bs ← base64DecodeAux rest
        some ((i0 * 4 + i1 / 16) :: ((i1 % 16) * 16 + i2 / 4) :: ((i2 % 4) * 64 + i3) :: bs)
  | _ => none

def base64Decode (s : String) : Option (List Nat) :=
  base64DecodeAux s.data

/-- Character of the standard base64 alphabet at the given 6-bit index. -/
def b64Char (n : Nat) : Char :=
  if n < 26 then Char.ofNat (65 + n)
  else if n < 52 then Char.ofNat (97 + (n - 26))
  else if n < 62 then Char.ofNat (48 + (n - 52))
  else if n = 62 then '+'
  else '/'

/-- Standard (padded) base64 encoding of a byte list. -/
def base64EncodeAux : List Nat → List Char
  | [] => []
  | [b0] => [b64Char (b0 / 4), b64Char ((b0 % 4) * 16), '=', '=']
  | [b0, b1] => [b64Char (b0 / 4), b64Char ((b0 % 4) * 16 + b1 / 16), b64Char ((b1 % 16) * 4), '=']
  | b0 :: b1 :: b2 :: rest =>
    b64Char (b0 / 4) :: b64Char ((b0 % 4) * 16 + b1 / 16) ::
      b64Char ((b1 % 16) * 4 + b2 / 64) :: b64Char (b2 % 64) :: base64EncodeAux rest

def base64Encode (bs : List Nat) : String :=
  String.mk (base64EncodeAux bs)

/-! ## Parsers of this repository that live outside `src/` -/

/-- Modelled from the spec: the greeting-argument parser (`parseHelloArgument`)
is not under `src/` (only its caller `handleGreet` is).  Per the spec,
greeting-argument parsing extracts a domain or address literal (the token up
to the first space) and failure to find a plausible token (an empty one) is
an error. -/
def parseHelloArgument (arg : String) : Option String :=
  let domain := ((splitOnChar ' ' arg).headD "")
  if domain = "" then none else some domain

/-- Modelled from the spec: the ESMTP parameter-list parser (`parseArgs`) is
not under `src/` (only its caller `handleMail` is).  Per the spec, trailing
parameters are parsed as `KEY=VALUE` (or bare `KEY`) pairs into a mapping,
and malformed parameter syntax (duplicate delimiters) is a parse error. -/
def parseArgs (args : List String) : Option (List (String × String)) :=
  args.foldlM
    (fun acc a =>
      if a = "" then some acc
      else
        match splitOnChar '=' a with
        | [k, v] => some (acc ++ [(toUpperStr k, v)])
        | [k] => some (acc ++ [(toUpperStr k, "")])
        | _ => none)
    []

/-- Lookup in the parameter mapping; a later binding shadows an earlier one
(map overwrite), absent keys give `""` (Go zero value). -/
def lookupArg (l : List (String × String)) (k : String) : String :=
  ((l.reverse.find? (fun p => p.1 = k)).map Prod.snd).getD ""

/-! ## Data model -/

/-- Modelled from the spec: the enhanced-status-code type (`EnhancedCode`,
a 3-tuple of integers) and its two distinct sentinel markers are defined
outside `src/`.  The spec describes a "not set" sentinel (derive a generic
code from the base reply class) and a distinct "no enhanced code" marker
(omit the enhanced-code prefix entirely); they are represented here by two
distinct reserved triples. -/
abbrev EnhancedCode := Int × Int × Int

def EnhancedCodeNotSet : EnhancedCode := (-1, -1, -1)

def NoEnhancedCode : EnhancedCode := (-1, 0, -1)

/-- A structured or opaque error returned by an external collaborator
(backend / session / SASL mechanism), cf. `*SMTPError` vs generic `error`. -/
inductive OracleErr where
  | smtp (code : Nat) (enh : EnhancedCode) (msg : String)
  | other (msg : String)
deriving DecidableEq

/-- One observable or instrumented event of a command step.  `reply` records
a `c.WriteResponse(code, enh, text...)` call, `close` a `c.Close()` call;
`greeted`, `mailAccepted`, `rcptAccepted` and `didReset` mark the state
updates `c.helo = domain`, `c.fromReceived = true`,
`c.recipients = append(...)` and `c.reset()` at the corresponding source
lines. -/
inductive Event where
  | reply (code : Nat) (enh : EnhancedCode) (text : List String)
  | close
  | greeted (domain : String)
  | mailAccepted (addr : String)
  | rcptAccepted (addr : String)
  | didReset
deriving DecidableEq

/-- The read-only per-server configuration consulted by `conn.go`. -/
structure Server where
  LMTP : Bool
  Strict : Bool
  AuthDisabled : Bool
  AllowInsecureAuth : Bool
  MaxRecipients : Nat
  MaxMessageBytes : Nat
  /-- whether `server.TLSConfig != nil` -/
  TLSConfig : Bool
  caps : List String
  /-- names of the registered SASL mechanisms (`server.auths` keys) -/
  auths : List String
  Domain : String

/-- The mutable per-connection state of `Conn` that `conn.go` reads or
writes.  `session` is whether a session handle is installed (`c.session !=
nil`); `isTLS` is whether `c.conn` is a `*tls.Conn`; `closed` records that
`c.Close()` ran. -/
structure Conn where
  helo : String
  nbrErrors : Nat
  session : Bool
  fromReceived : Bool
  recipients : List String
  isTLS : Bool
  closed : Bool
deriving DecidableEq

/-- The state of a freshly accepted connection (`newConn`). -/
def initConn : Conn :=
  { helo := "", nbrErrors := 0, session := false, fromReceived := false
    recipients := [], isTLS := false, closed := false }

/-- One round of the SASL exchange as decided by the mechanism and the peer:
`sasl.Next` errors, reports completion (possibly installing a session via
the connection capability handed to the mechanism), or returns a challenge,
in which case the peer's answering line is read (`none` = read error). -/
inductive SaslRound where
  | rErr (e : OracleErr)
  | rDone (installSession : Bool)
  | rChallenge (challenge : List Nat) (clientLine : Option String)

/-- The collaborator outcomes available to one command step: result of
`Backend.AnonymousLogin`, of `Session.Mail/Rcpt/Data` (`none` = success),
of the TLS handshake, and the SASL exchange script. -/
structure StepEnv where
  anonymousLogin : Option OracleErr
  mailRes : Option OracleErr
  rcptRes : Option OracleErr
  dataRes : Option OracleErr
  handshakeOk : Bool
  saslScript : List SaslRound

/-! ## The response writer (`WriteResponse`, conn.go:500-526) -/

/-- The wire lines produced by `WriteResponse`: continuation lines use
`code-text`; the final line derives a generic enhanced code from the base
code's hundreds digit when given the not-set sentinel, and omits the
enhanced-code segment for the no-enhanced-code marker.  (The source indexes
`text[len(text)-1]`; callers always pass at least one line.) -/
def WriteResponse (code : Nat) (enhCode : EnhancedCode) (text : List String) : List String :=
  let enh : EnhancedCode :=
    if enhCode = EnhancedCodeNotSet then
      let cat := code / 100
      if cat = 2 ∨ cat = 4 ∨ cat = 5 then ((cat : Int), 0, 0) else NoEnhancedCode
    else enhCode
  let contLines := text.dropLast.map (fun t => Nat.repr code ++ "-" ++ t)
  let lastText := text.getLast?.getD ""
  if enh = NoEnhancedCode then
    contLines ++ [Nat.repr code ++ " " ++ lastText]
  else
    contLines ++
      [Nat.repr code ++ " " ++ enh.1.repr ++ "." ++ enh.2.1.repr ++ "." ++ enh.2.2.repr
        ++ " " ++ lastText]

/-! ## Command handlers (conn.go) -/

/-- `reset` (conn.go:539-548): clears the envelope (`fromReceived`,
`recipients`) and invokes the session's reset hook (collaborator side, no
engine state).  The session handle itself is kept. -/
def reset (c : Conn) : Conn × List Event :=
  ({ c with fromReceived := false, recipients := [] }, [Event.didReset])

/-- `unrecognizedCommand` (conn.go:65-73): replies 500, bumps the error
counter, and force-closes once the counter exceeds 3. -/
def unrecognizedCommand (c : Conn) (cmd : String) : Conn × List Event :=
  let ev1 := Event.reply 500 (5, 5, 2) ["Syntax error, " ++ cmd ++ " command unrecognized"]
  let c1 := { c with nbrErrors := c.nbrErrors + 1 }
  if c1.nbrErrors > 3 then
    ({ c1 with closed := true },
      [ev1, Event.reply 500 (5, 5, 2) ["Too many unrecognized commands"], Event.close])
  else
    (c1, [ev1])

/-- `authAllowed` (conn.go:185-188). -/
def authAllowed (srv : Server) (c : Conn) : Bool :=
  !srv.AuthDisabled && (c.isTLS || srv.AllowInsecureAuth)

/-- `handleGreet` (conn.go:191-231): parses the hello argument, stores the
declared identity, and replies 250 (a plain hello, or the capability listing
for the enhanced greeting) — or 501 when the argument is invalid. -/
def handleGreet (srv : Server) (c : Conn) (enhanced : Bool) (arg : String) :
    Conn × List Event :=
  if enhanced = false then
    match parseHelloArgument arg with
    | none => (c, [Event.reply 501 (5, 5, 2) ["Domain/address argument required for HELO"]])
    | some domain =>
      ({ c with helo := domain },
        [Event.greeted domain, Event.reply 250 (2, 0, 0) ["Hello " ++ domain]])
  else
    match parseHelloArgument arg with
    | none => (c, [Event.reply 501 (5, 5, 2) ["Domain/address argument required for EHLO"]])
    | some domain =>
      let caps : List String :=
        srv.caps
          ++ (if srv.TLSConfig = true ∧ c.isTLS = false then ["STARTTLS"] else [])
          ++ (if authAllowed srv c then
                [srv.auths.foldl (fun s name => s ++ " " ++ name) "AUTH"]
              else [])
          ++ (if srv.MaxMessageBytes > 0 then ["SIZE " ++ Nat.repr srv.MaxMessageBytes] else [])
      ({ c with helo := domain },
        [Event.greeted domain,
          Event.reply 250 NoEnhancedCode (("Hello " ++ domain) :: caps)])

/-- `handleMail` (conn.go:234-307): requires a greeting, lazily creates an
anonymous session, parses the `FROM:` argument (strict-mode brackets, empty
address, ESMTP parameters, SIZE), delegates to the session, and on success
sets `fromReceived`. -/
def handleMail (srv : Server) (env : StepEnv) (c : Conn) (arg : String) :
    Conn × List Event :=
  if c.helo = "" then
    (c, [Event.reply 502 (2, 5, 1) ["Please introduce yourself first."]])
  else
    let login : Conn ⊕ (Nat × EnhancedCode × String) :=
      if c.session then Sum.inl c
      else
        match env.anonymousLogin with
        | none => Sum.inl { c with session := true }
        | some (OracleErr.smtp code enh msg) => Sum.inr (code, enh, msg)
        | some (OracleErr.other msg) => Sum.inr (502, (5, 7, 0), msg)
    match login with
    | Sum.inr e => (c, [Event.reply e.1 e.2.1 [e.2.2]])
    | Sum.inl c1 =>
      if arg.length < 6 ∨ toUpperStr (strTake arg 5) ≠ "FROM:" then
        (c1, [Event.reply 501 (5, 5, 2) ["Was expecting MAIL arg syntax of FROM:<address>"]])
      else
        let fromArgs := splitOnChar ' ' (trimCutset (strDrop arg 5) [' '])
        let f0 := fromArgs.headD ""
        if srv.Strict ∧ ¬(startsWithStr f0 "<" ∧ endsWithStr f0 ">") then
          (c1, [Event.reply 501 (5, 5, 2) ["Was expecting MAIL arg syntax of FROM:<address>"]])
        else
          let fromAddr := trimCutset f0 ['<', '>', ' ']
          if fromAddr = "" then
            (c1, [Event.reply 501 (5, 5, 2) ["Was expecting MAIL arg syntax of FROM:<address>"]])
          else
            let paramErr : Option (Nat × EnhancedCode × String) :=
              if fromArgs.length > 1 then
                match parseArgs fromArgs.tail with
                | none =>
                  some (501, (5, 5, 4), "Unable to parse MAIL ESMTP parameters")
                | some argMap =>
                  if lookupArg argMap "SIZE" ≠ "" then
                    match parseInt32 (lookupArg argMap "SIZE") with
                    | none =>
                      some (501, (5, 5, 4), "Unable to parse SIZE as an integer")
                    | some size =>
                      if srv.MaxMessageBytes > 0 ∧ size > (srv.MaxMessageBytes : Int) then
                        some (552, (5, 3, 4), "Max message size exceeded")
                      else none
                  else none
              else none
            match paramErr with
            | some e => (c1, [Event.reply e.1 e.2.1 [e.2.2]])
            | none =>
              match env.mailRes with
              | some (OracleErr.smtp code enh msg) => (c1, [Event.reply code enh [msg]])
              | some (OracleErr.other msg) => (c1, [Event.reply 451 (4, 0, 0) [msg]])
              | none =>
                ({ c1 with fromReceived := true },
                  [Event.reply 250 (2, 0, 0)
                      ["Roger, accepting mail from <" ++ fromAddr ++ ">"],
                    Event.mailAccepted fromAddr])

/-- `handleRcpt` (conn.go:310-339): requires `fromReceived`, parses the
`TO:` argument, enforces the recipient limit before delegating, and on
success appends to `recipients`. -/
def handleRcpt (srv : Server) (env : StepEnv) (c : Conn) (arg : String) :
    Conn × List Event :=
  if c.fromReceived = false then
    (c, [Event.reply 502 (5, 5, 1) ["Missing MAIL FROM command."]])
  else if arg.length < 4 ∨ toUpperStr (strTake arg 3) ≠ "TO:" then
    (c, [Event.reply 501 (5, 5, 2) ["Was expecting RCPT arg syntax of TO:<address>"]])
  else
    let recipient := trimCutset (strDrop arg 3) ['<', '>', ' ']
    if srv.MaxRecipients > 0 ∧ c.recipients.length ≥ srv.MaxRecipients then
      (c, [Event.reply 552 (5, 5, 3)
          ["Maximum limit of " ++ Nat.repr srv.MaxRecipients ++ " recipients reached"]])
    else
      match env.rcptRes with
      | some (OracleErr.smtp code enh msg) => (c, [Event.reply code enh [msg]])
      | some (OracleErr.other msg) => (c, [Event.reply 451 (4, 0, 0) [msg]])
      | none =>
        ({ c with recipients := c.recipients ++ [recipient] },
          [Event.rcptAccepted recipient,
            Event.reply 250 (2, 0, 0) ["I\x27ll make sure <" ++ recipient ++ "> gets this"]])

/-- The challenge/response loop of `handleAuth` (conn.go:374-409), driven by
the SASL round script.  An exhausted script models a `ReadLine` failure,
which the source handles by returning silently; `rDone true` models the
mechanism installing a session through its connection capability before
reporting completion. -/
def authLoop (c : Conn) : List SaslRound → Conn × List Event
  | [] => (c, [])
  | SaslRound.rErr (OracleErr.smtp code enh msg) :: _ => (c, [Event.reply code enh [msg]])
  | SaslRound.rErr (OracleErr.other msg) :: _ => (c, [Event.reply 454 (4, 7, 0) [msg]])
  | SaslRound.rDone installSession :: _ =>
    let c1 := if installSession then { c with session := true } else c
    if c1.session then (c1, [Event.reply 235 (2, 0, 0) ["Authentication succeeded"]])
    else (c1, [])
  | SaslRound.rChallenge challenge clientLine :: rest =>
    let encoded := if challenge.length > 0 then base64Encode challenge else ""
    let ev334 := Event.reply 334 NoEnhancedCode [encoded]
    match clientLine with
    | none => (c, [ev334])
    | some line =>
      match base64Decode line with
      | none => (c, [ev334, Event.reply 454 (4, 7, 0) ["Invalid base64 data"]])
      | some _ =>
        let r := authLoop c rest
        (r.1, ev334 :: r.2)

/-- `handleAuth` (conn.go:341-410): requires a greeting, splits the argument
into mechanism name and optional initial response; an initial response that
is not valid base64 makes the handler return silently, before the mechanism
lookup; an unknown mechanism replies 504; otherwise the exchange loop runs. -/
def handleAuth (srv : Server) (env : StepEnv) (c : Conn) (arg : String) :
    Conn × List Event :=
  if c.helo = "" then
    (c, [Event.reply 502 (5, 5, 1) ["Please introduce yourself first."]])
  else
    let parts := strFields arg
    if parts.length = 0 then
      (c, [Event.reply 502 (5, 5, 4) ["Missing parameter"]])
    else
      let mechanism := toUpperStr (parts.headD "")
      let irRes : Option (Option (List Nat)) :=
        if parts.length > 1 then
          match base64Decode ((parts.drop 1).headD "") with
          | none => none
          | some bs => some (some bs)
        else some none
      match irRes with
      | none => (c, [])
      | some _ =>
        if (srv.auths.contains mechanism) = false then
          (c, [Event.reply 504 (5, 7, 4) ["Unsupported authentication mechanism"]])
        else
          authLoop c env.saslScript

/-- `handleStartTLS` (conn.go:412-438): refuses when already secured or TLS
is not configured; otherwise replies 220, performs the handshake (a failure
replies 550 but does not close), swaps the transport, and resets the
envelope. -/
def handleStartTLS (srv : Server) (env : StepEnv) (c : Conn) : Conn × List Event :=
  if c.isTLS then
    (c, [Event.reply 502 (5, 5, 1) ["Already running in TLS"]])
  else if srv.TLSConfig = false then
    (c, [Event.reply 502 (5, 5, 1) ["TLS not supported"]])
  else
    let ready := Event.reply 220 (2, 0, 0) ["Ready to start TLS"]
    let hsEvs : List Event :=
      if env.handshakeOk then [] else [Event.reply 550 (5, 0, 0) ["Handshake error"]]
    let r := reset { c with isTLS := true }
    (r.1, ready :: (hsEvs ++ r.2))

/-- `handleData` (conn.go:441-489): rejects an argument (501) and a missing
envelope (502); otherwise enters the data phase with 354, maps the session's
data outcome to the final reply (fanned out per recipient in LMTP mode), and
resets the envelope.  The framing reader and its drain are byte I/O on the
transport; the session's verdict on the stream is the `dataRes` oracle. -/
def handleData (srv : Server) (env : StepEnv) (c : Conn) (arg : String) :
    Conn × List Event :=
  if arg ≠ "" then
    (c, [Event.reply 501 (5, 5, 4) ["DATA command should not have any arguments"]])
  else if c.fromReceived = false ∨ c.recipients.length = 0 then
    (c, [Event.reply 502 (5, 5, 1) ["Missing RCPT TO command."]])
  else
    let goAhead :=
      Event.reply 354 (2, 0, 0) ["Go ahead. End your data with <CR><LF>.<CR><LF>"]
    let outcome : Nat × EnhancedCode × String :=
      match env.dataRes with
      | none => (250, (2, 0, 0), "OK: queued")
      | some (OracleErr.smtp code enh msg) => (code, enh, msg)
      | some (OracleErr.other msg) =>
        (554, (5, 0, 0), "Error: transaction failed, blame it on the weather: " ++ msg)
    let finalReplies : List Event :=
      if srv.LMTP then
        c.recipients.map (fun rcpt =>
          Event.reply outcome.1 outcome.2.1 ["<" ++ rcpt ++ "> " ++ outcome.2.2])
      else
        [Event.reply outcome.1 outcome.2.1 [outcome.2.2]]
    let r := reset c
    (r.1, goAhead :: (finalReplies ++ r.2))

/-- `handle` (conn.go:76-135): the command dispatcher.  The panic-recovery
guard is not modelled: the collaborator oracles are total. -/
def handle (srv : Server) (env : StepEnv) (c : Conn) (cmd0 arg : String) :
    Conn × List Event :=
  if cmd0 = "" then
    (c, [Event.reply 500 (5, 5, 2) ["Speak up"]])
  else
    let cmd := toUpperStr cmd0
    if cmd = "SEND" ∨ cmd = "SOML" ∨ cmd = "SAML" ∨ cmd = "EXPN" ∨ cmd = "HELP" ∨ cmd = "TURN" then
      (c, [Event.reply 502 (5, 5, 1) [cmd ++ " command not implemented"]])
    else if cmd = "HELO" ∨ cmd = "EHLO" ∨ cmd = "LHLO" then
      let lmtp := cmd = "LHLO"
      let enhanced := lmtp ∨ cmd = "EHLO"
      let pre : List Event :=
        (if srv.LMTP = true ∧ ¬lmtp then
           [Event.reply 500 (5, 5, 1) ["This is a LMTP server, use LHLO"]]
         else []) ++
        (if srv.LMTP = false ∧ lmtp then
           [Event.reply 500 (5, 5, 1) ["This is not a LMTP server"]]
         else [])
      let r := handleGreet srv c enhanced arg
      (r.1, pre ++ r.2)
    else if cmd = "MAIL" then handleMail srv env c arg
    else if cmd = "RCPT" then handleRcpt srv env c arg
    else if cmd = "VRFY" then
      (c, [Event.reply 252 (2, 5, 0) ["Cannot VRFY user, but will accept message"]])
    else if cmd = "NOOP" then
      (c, [Event.reply 250 (2, 0, 0) ["I have sucessfully done nothing"]])
    else if cmd = "RSET" then
      let r := reset c
      (r.1, r.2 ++ [Event.reply 250 (2, 0, 0) ["Session reset"]])
    else if cmd = "DATA" then handleData srv env c arg
    else if cmd = "QUIT" then
      ({ c with closed := true },
        [Event.reply 221 (2, 0, 0) ["Goodnight and good luck"], Event.close])
    else if cmd = "AUTH" then
      if srv.AuthDisabled then unrecognizedCommand c cmd else handleAuth srv env c arg
    else if cmd = "STARTTLS" then handleStartTLS srv env c
    else unrecognizedCommand c cmd

/-- One iteration of the per-connection command loop: a closed connection
processes nothing further. -/
def stepConn (srv : Server) (s : StepEnv × String × String) (c : Conn) :
    Conn × List Event :=
  if c.closed then (c, []) else handle srv s.1 c s.2.1 s.2.2

/-- Runs the command loop over a list of command lines, each with its
collaborator outcomes, accumulating all events. -/
def run (srv : Server) : List (StepEnv × String × String) → Conn → Conn × List Event
  | [], c => (c, [])
  | s :: rest, c =>
    let r1 := stepConn srv s c
    let r2 := run srv rest r1.1
    (r2.1, r1.2 ++ r2.2)

/-! ## Trace observations -/

/-- The base codes of the replies in an event list, in order. -/
def replyCodes (evs : List Event) : List Nat :=
  evs.filterMap (fun e => match e with | Event.reply code _ _ => some code | _ => none)

/-- Whether a sender-accepted event occurs. -/
def hasMail (evs : List Event) : Bool :=
  evs.any (fun e => match e with | Event.mailAccepted _ => true | _ => false)

/-- Number of sender-accepted events. -/
def mailCount (evs : List Event) : Nat :=
  evs.countP (fun e => match e with | Event.mailAccepted _ => true | _ => false)

/-- Number of recipient-accepted events. -/
def rcptCount (evs : List Event) : Nat :=
  evs.countP (fun e => match e with | Event.rcptAccepted _ => true | _ => false)

/-- Accumulates the events after the last reset. -/
def slrStep (acc : List Event) (e : Event) : List Event :=
  match e with
  | Event.didReset => []
  | _ => acc ++ [e]

/-- The events after the last reset (the whole trace if none occurred). -/
def sinceLastReset (evs : List Event) : List Event :=
  evs.foldl slrStep []

/-- The events after the last reset or greeting — the window over which the
spec's DATA-gating sentence counts envelope events ("since the last reset,
greeting, or transport upgrade"; an upgrade performs a reset). -/
def claimWindow (evs : List Event) : List Event :=
  evs.foldl
    (fun acc e => match e with
      | Event.didReset => []
      | Event.greeted _ => []
      | _ => acc ++ [e])
    []

/-- Whether an event is a reply (as opposed to a close or an envelope
instrumentation mark). -/
def isReplyEv : Event → Bool :=
  fun e => match e with | Event.reply _ _ _ => true | _ => false

/-- The verbs the dispatcher recognizes (conn.go:94-134). -/
def knownCmds : List String :=
  ["SEND", "SOML", "SAML", "EXPN", "HELP", "TURN", "HELO", "EHLO", "LHLO", "MAIL",
    "RCPT", "VRFY", "NOOP", "RSET", "DATA", "QUIT", "AUTH", "STARTTLS"]

/-- The envelope summary (`fromReceived`, number of accepted recipients) as
determined by one event. -/
def envUpd (p : Bool × Nat) (e : Event) : Bool × Nat :=
  match e with
  | Event.didReset => (false, 0)
  | Event.mailAccepted _ => (true, p.2)
  | Event.rcptAccepted _ => (p.1, p.2 + 1)
  | _ => p

/-- The envelope summary after a list of events. -/
def envFold (p : Bool × Nat) (evs : List Event) : Bool × Nat :=
  evs.foldl envUpd p

/-- A permissive server configuration used for concrete scenarios. -/
def srv0 : Server :=
  { LMTP := false, Strict := false, AuthDisabled := false, AllowInsecureAuth := false
    MaxRecipients := 0, MaxMessageBytes := 0, TLSConfig := false, caps := []
    auths := [], Domain := "localhost" }

/-- Collaborator outcomes where every call succeeds. -/
def envOk : StepEnv :=
  { anonymousLogin := none, mailRes := none, rcptRes := none, dataRes := none
    handshakeOk := true, saslScript := [] }

/-! ## Invariant machinery

The per-step lemmas below show that each handler's resulting envelope state
(`fromReceived`, number of accepted recipients) is the fold of `envUpd` over
the events it emits, and that recipients are only ever accepted after a
sender was; folding over a whole trace then ties the connection state to the
events since the last reset. -/

theorem envFold_of_replies : ∀ (evs : List Event) (p : Bool × Nat),
    evs.all isReplyEv = true → envFold p evs = p := by
  intro evs
  induction evs with
  | nil => intro p _; rfl
  | cons e rest ih =>
    intro p h
    simp only [List.all_cons, Bool.and_eq_true] at h
    have he : envUpd p e = p := by
      cases e <;> simp_all [isReplyEv, envUpd]
    calc envFold p (e :: rest) = envFold (envUpd p e) rest := rfl
      _ = envFold p rest := by rw [he]
      _ = p := ih p h.2

theorem authLoop_shape (script : List SaslRound) : ∀ c : Conn,
    (authLoop c script).1.fromReceived = c.fromReceived ∧
    (authLoop c script).1.recipients = c.recipients ∧
    (authLoop c script).2.all isReplyEv = true := by
  induction script with
  | nil => intro c; simp [authLoop]
  | cons r rest ih =>
    intro c
    cases r with
    | rErr e => cases e <;> simp [authLoop, isReplyEv]
    | rDone inst =>
      cases inst <;> simp [authLoop] <;> cases hs : c.session <;> simp [isReplyEv]
    | rChallenge ch line =>
      cases line with
      | none => simp [authLoop, isReplyEv]
      | some s =>
        cases hb : base64Decode s with
        | none => simp [authLoop, hb, isReplyEv]
        | some bs =>
          have h := ih c
          simp [authLoop, hb, isReplyEv, h.1, h.2.1, h.2.2]

theorem handleGreet_envelope (srv : Server) (c : Conn) (enhanced : Bool) (arg : String) :
    ((handleGreet srv c enhanced arg).1.fromReceived,
      (handleGreet srv c enhanced arg).1.recipients.length)
      = envFold (c.fromReceived, c.recipients.length) (handleGreet srv c enhanced arg).2 := by
  unfold handleGreet
  cases enhanced <;> cases hp : parseHelloArgument arg <;> simp [envFold, envUpd]

theorem handleMail_envelope (srv : Server) (env : StepEnv) (c : Conn) (arg : String) :
    ((handleMail srv env c arg).1.fromReceived,
      (handleMail srv env c arg).1.recipients.length)
      = envFold (c.fromReceived, c.recipients.length) (handleMail srv env c arg).2 := by
  unfold handleMail
  by_cases hh : c.helo = ""
  · simp [hh, envFold, envUpd]
  · cases hs : c.session
    · cases ha : env.anonymousLogin with
      | none =>
        simp [hh, hs, ha]
        repeat' split <;> try simp [envFold, envUpd]
      | some e => cases e <;> simp [hh, hs, ha, envFold, envUpd]
    · simp [hh, hs]
      repeat' split <;> try simp [envFold, envUpd]

theorem handleRcpt_envelope (srv : Server) (env : StepEnv) (c : Conn) (arg : String) :
    ((handleRcpt srv env c arg).1.fromReceived,
      (handleRcpt srv env c arg).1.recipients.length)
      = envFold (c.fromReceived, c.recipients.length) (handleRcpt srv env c arg).2 := by
  unfold handleRcpt
  repeat' split <;> try simp [envFold, envUpd]

theorem isReplyEv_map_all (l : List String) (g : String → Event)
    (hg : ∀ s, isReplyEv (g s) = true) : (l.map g).all isReplyEv = true := by
  induction l <;> simp_all

theorem envUpd_of_reply (p : Bool × Nat) (g : Event) (hg : isReplyEv g = true) :
    envUpd p g = p := by
  cases g <;> simp_all [isReplyEv, envUpd]

theorem envFold_append (p : Bool × Nat) (a b : List Event) :
    envFold p (a ++ b) = envFold (envFold p a) b :=
  List.foldl_append ..

theorem envFold_guarded_reset (p : Bool × Nat) (g : Event) (hg : isReplyEv g = true)
    (l : List Event) (hl : l.all isReplyEv = true) :
    envFold p (g :: (l ++ [Event.didReset])) = (false, 0) := by
  calc envFold p (g :: (l ++ [Event.didReset]))
      = envFold (envUpd p g) (l ++ [Event.didReset]) := rfl
    _ = envFold p (l ++ [Event.didReset]) := by rw [envUpd_of_reply p g hg]
    _ = envFold (envFold p l) [Event.didReset] := envFold_append ..
    _ = envFold p [Event.didReset] := by rw [envFold_of_replies l p hl]
    _ = (false, 0) := rfl

theorem envFold_data_fanout (p : Bool × Nat) (co : Nat) (enh : EnhancedCode)
    (msg : String) (l : List String) :
    envFold p (Event.reply 354 (2, 0, 0) ["Go ahead. End your data with <CR><LF>.<CR><LF>"] ::
      (List.map (fun rcpt => Event.reply co enh ["<" ++ rcpt ++ "> " ++ msg]) l
        ++ [Event.didReset])) = (false, 0) :=
  envFold_guarded_reset p
    (Event.reply 354 (2, 0, 0) ["Go ahead. End your data with <CR><LF>.<CR><LF>"]) rfl
    (List.map (fun rcpt => Event.reply co enh ["<" ++ rcpt ++ "> " ++ msg]) l)
    (isReplyEv_map_all l (fun rcpt => Event.reply co enh ["<" ++ rcpt ++ "> " ++ msg])
      (fun _ => rfl))

theorem handleData_envelope (srv : Server) (env : StepEnv) (c : Conn) (arg : String) :
    ((handleData srv env c arg).1.fromReceived,
      (handleData srv env c arg).1.recipients.length)
      = envFold (c.fromReceived, c.recipients.length) (handleData srv env c arg).2 := by
  unfold handleData reset
  split
  · simp [envFold, envUpd]
  split
  · simp [envFold, envUpd]
  have step : ∀ co enh msg,
      (false, ([] : List String).length) =
        envFold (c.fromReceived, c.recipients.length)
          (Event.reply 354 (2, 0, 0) ["Go ahead. End your data with <CR><LF>.<CR><LF>"] ::
            (List.map (fun rcpt => Event.reply co enh ["<" ++ rcpt ++ "> " ++ msg]) c.recipients
              ++ [Event.didReset])) := by
    intro co enh msg
    rw [envFold_data_fanout]
    rfl
  cases hd : env.dataRes with
  | none =>
    cases hl : srv.LMTP
    · dsimp only; simp [envFold, envUpd]
    · dsimp only; rw [if_pos rfl]; exact step 250 (2, 0, 0) "OK: queued"
  | some e =>
    cases e with
    | smtp code enh msg =>
      cases hl : srv.LMTP
      · dsimp only; simp [envFold, envUpd]
      · dsimp only; rw [if_pos rfl]; exact step code enh msg
    | other msg =>
      cases hl : srv.LMTP
      · dsimp only; simp [envFold, envUpd]
      · dsimp only; rw [if_pos rfl]
        exact step 554 (5, 0, 0) ("Error: transaction failed, blame it on the weather: " ++ msg)

theorem handleStartTLS_envelope (srv : Server) (env : StepEnv) (c : Conn) :
    ((handleStartTLS srv env c).1.fromReceived,
      (handleStartTLS srv env c).1.recipients.length)
      = envFold (c.fromReceived, c.recipients.length) (handleStartTLS srv env c).2 := by
  unfold handleStartTLS reset
  repeat' split <;> try simp [envFold, envUpd]

theorem unrecognizedCommand_envelope (c : Conn) (cmd : String) :
    ((unrecognizedCommand c cmd).1.fromReceived,
      (unrecognizedCommand c cmd).1.recipients.length)
      = envFold (c.fromReceived, c.recipients.length) (unrecognizedCommand c cmd).2 := by
  unfold unrecognizedCommand
  dsimp only
  split <;> simp [envFold, envUpd]

theorem handleAuth_envelope (srv : Server) (env : StepEnv) (c : Conn) (arg : String) :
    ((handleAuth srv env c arg).1.fromReceived,
      (handleAuth srv env c arg).1.recipients.length)
      = envFold (c.fromReceived, c.recipients.length) (handleAuth srv env c arg).2 := by
  unfold handleAuth
  have hals := authLoop_shape env.saslScript c
  repeat' split <;> try simp [envFold, envUpd, hals.1, hals.2.1]
  exact (envFold_of_replies _ _ hals.2.2).symm

theorem all_isReplyEv_ite (p : Prop) [Decidable p] (l : List Event)
    (hl : l.all isReplyEv = true) :
    (if p then l else []).all isReplyEv = true := by
  split <;> simp [hl]

theorem handle_envelope (srv : Server) (env : StepEnv) (c : Conn) (cmd0 arg : String) :
    ((handle srv env c cmd0 arg).1.fromReceived,
      (handle srv env c cmd0 arg).1.recipients.length)
      = envFold (c.fromReceived, c.recipients.length) (handle srv env c cmd0 arg).2 := by
  unfold handle
  by_cases h0 : cmd0 = ""
  · rw [if_pos h0]; rfl
  · rw [if_neg h0]
    dsimp only
    by_cases h1 : toUpperStr cmd0 = "SEND" ∨ toUpperStr cmd0 = "SOML" ∨
        toUpperStr cmd0 = "SAML" ∨ toUpperStr cmd0 = "EXPN" ∨
        toUpperStr cmd0 = "HELP" ∨ toUpperStr cmd0 = "TURN"
    · rw [if_pos h1]; rfl
    · rw [if_neg h1]
      by_cases h2 : toUpperStr cmd0 = "HELO" ∨ toUpperStr cmd0 = "EHLO" ∨
          toUpperStr cmd0 = "LHLO"
      · rw [if_pos h2]
        dsimp only
        rw [envFold_append, envFold_append,
          envFold_of_replies _ _ (all_isReplyEv_ite _
            [Event.reply 500 (5, 5, 1) ["This is a LMTP server, use LHLO"]] rfl),
          envFold_of_replies _ _ (all_isReplyEv_ite _
            [Event.reply 500 (5, 5, 1) ["This is not a LMTP server"]] rfl)]
        exact handleGreet_envelope ..
      · rw [if_neg h2]
        by_cases h3 : toUpperStr cmd0 = "MAIL"
        · rw [if_pos h3]; exact handleMail_envelope ..
        · rw [if_neg h3]
          by_cases h4 : toUpperStr cmd0 = "RCPT"
          · rw [if_pos h4]; exact handleRcpt_envelope ..
          · rw [if_neg h4]
            by_cases h5 : toUpperStr cmd0 = "VRFY"
            · rw [if_pos h5]; rfl
            · rw [if_neg h5]
              by_cases h6 : toUpperStr cmd0 = "NOOP"
              · rw [if_pos h6]; rfl
              · rw [if_neg h6]
                by_cases h7 : toUpperStr cmd0 = "RSET"
                · rw [if_pos h7]; rfl
                · rw [if_neg h7]
                  by_cases h8 : toUpperStr cmd0 = "DATA"
                  · rw [if_pos h8]; exact handleData_envelope ..
                  · rw [if_neg h8]
                    by_cases h9 : toUpperStr cmd0 = "QUIT"
                    · rw [if_pos h9]; rfl
                    · rw [if_neg h9]
                      by_cases h10 : toUpperStr cmd0 = "AUTH"
                      · rw [if_pos h10]
                        by_cases h11 : srv.AuthDisabled
                        · rw [if_pos h11]; exact unrecognizedCommand_envelope ..
                        · rw [if_neg h11]; exact handleAuth_envelope ..
                      · rw [if_neg h10]
                        by_cases h12 : toUpperStr cmd0 = "STARTTLS"
                        · rw [if_pos h12]; exact handleStartTLS_envelope ..
                        · rw [if_neg h12]; exact unrecognizedCommand_envelope ..

theorem stepConn_envelope (srv : Server) (s : StepEnv × String × String) (c : Conn) :
    ((stepConn srv s c).1.fromReceived, (stepConn srv s c).1.recipients.length)
      = envFold (c.fromReceived, c.recipients.length) (stepConn srv s c).2 := by
  unfold stepConn
  split
  · rfl
  · exact handle_envelope ..

theorem run_envelope (srv : Server) (steps : List (StepEnv × String × String)) :
    ∀ c : Conn,
      ((run srv steps c).1.fromReceived, (run srv steps c).1.recipients.length)
        = envFold (c.fromReceived, c.recipients.length) (run srv steps c).2 := by
  induction steps with
  | nil => intro c; rfl
  | cons s rest ih =>
    intro c
    show ((run srv rest (stepConn srv s c).1).1.fromReceived,
        (run srv rest (stepConn srv s c).1).1.recipients.length)
      = envFold (c.fromReceived, c.recipients.length)
          ((stepConn srv s c).2 ++ (run srv rest (stepConn srv s c).1).2)
    rw [envFold_append, ← stepConn_envelope]
    exact ih (stepConn srv s c).1

theorem envFold_slr : ∀ (evs acc : List Event),
    envFold (hasMail acc, rcptCount acc) evs
      = (hasMail (evs.foldl slrStep acc), rcptCount (evs.foldl slrStep acc)) := by
  intro evs
  induction evs with
  | nil => intro acc; rfl
  | cons e rest ih =>
    intro acc
    have h1 : envUpd (hasMail acc, rcptCount acc) e
        = (hasMail (slrStep acc e), rcptCount (slrStep acc e)) := by
      cases e <;>
        simp [envUpd, slrStep, hasMail, rcptCount, List.any_append, List.countP_append]
    calc envFold (hasMail acc, rcptCount acc) (e :: rest)
        = envFold (envUpd (hasMail acc, rcptCount acc) e) rest := rfl
      _ = envFold (hasMail (slrStep acc e), rcptCount (slrStep acc e)) rest := by rw [h1]
      _ = _ := ih (slrStep acc e)

theorem run_envelope_slr (srv : Server) (steps : List (StepEnv × String × String)) :
    ((run srv steps initConn).1.fromReceived, (run srv steps initConn).1.recipients.length)
      = (hasMail (sinceLastReset (run srv steps initConn).2),
          rcptCount (sinceLastReset (run srv steps initConn).2)) := by
  rw [run_envelope srv steps initConn]
  exact envFold_slr (run srv steps initConn).2 []

theorem hasMail_iff (l : List Event) : hasMail l = true ↔ 1 ≤ mailCount l := by
  rw [hasMail, mailCount, List.any_eq_true]
  constructor
  · rintro ⟨a, ha, hpa⟩
    exact List.countP_pos_iff.mpr ⟨a, ha, hpa⟩
  · intro h
    obtain ⟨a, ha, hpa⟩ := List.countP_pos_iff.mp h
    exact ⟨a, ha, hpa⟩

theorem handleGreet_pure (srv : Server) (c : Conn) (enhanced : Bool) (arg : String) :
    (handleGreet srv c enhanced arg).1.fromReceived = c.fromReceived ∧
    (handleGreet srv c enhanced arg).1.recipients = c.recipients := by
  unfold handleGreet
  cases enhanced <;> cases hp : parseHelloArgument arg <;> simp

theorem handleMail_shape (srv : Server) (env : StepEnv) (c : Conn) (arg : String) :
    (handleMail srv env c arg).1.recipients = c.recipients ∧
    ((handleMail srv env c arg).1.fromReceived = c.fromReceived ∨
      (handleMail srv env c arg).1.fromReceived = true) := by
  unfold handleMail
  by_cases hh : c.helo = ""
  · simp [hh]
  · cases hs : c.session
    · cases ha : env.anonymousLogin with
      | none =>
        simp [hh, hs, ha]
        repeat' split <;> try simp
      | some e => cases e <;> simp [hh, hs, ha]
    · simp [hh, hs]
      repeat' split <;> try simp

theorem handleRcpt_shape (srv : Server) (env : StepEnv) (c : Conn) (arg : String) :
    ((handleRcpt srv env c arg).1.recipients = c.recipients ∧
      (handleRcpt srv env c arg).1.fromReceived = c.fromReceived) ∨
    (handleRcpt srv env c arg).1.fromReceived = true := by
  unfold handleRcpt
  by_cases hfr : c.fromReceived = false
  · rw [if_pos hfr]; simp
  · rw [if_neg hfr]
    have hft : c.fromReceived = true := Bool.not_eq_false _ |>.mp hfr
    repeat' split <;> try simp [hft]

theorem handleData_shape (srv : Server) (env : StepEnv) (c : Conn) (arg : String) :
    ((handleData srv env c arg).1.recipients = c.recipients ∧
      (handleData srv env c arg).1.fromReceived = c.fromReceived) ∨
    ((handleData srv env c arg).1.fromReceived = false ∧
      (handleData srv env c arg).1.recipients = []) := by
  unfold handleData reset
  repeat' split <;> try simp

theorem handleStartTLS_shape (srv : Server) (env : StepEnv) (c : Conn) :
    ((handleStartTLS srv env c).1.recipients = c.recipients ∧
      (handleStartTLS srv env c).1.fromReceived = c.fromReceived) ∨
    ((handleStartTLS srv env c).1.fromReceived = false ∧
      (handleStartTLS srv env c).1.recipients = []) := by
  unfold handleStartTLS reset
  repeat' split <;> try simp

theorem unrecognizedCommand_pure (c : Conn) (cmd : String) :
    (unrecognizedCommand c cmd).1.fromReceived = c.fromReceived ∧
    (unrecognizedCommand c cmd).1.recipients = c.recipients := by
  unfold unrecognizedCommand
  dsimp only
  split <;> simp

theorem handleAuth_pure (srv : Server) (env : StepEnv) (c : Conn) (arg : String) :
    (handleAuth srv env c arg).1.fromReceived = c.fromReceived ∧
    (handleAuth srv env c arg).1.recipients = c.recipients := by
  unfold handleAuth
  have hals := authLoop_shape env.saslScript c
  repeat' split <;> try simp
  exact ⟨hals.1, hals.2.1⟩

theorem handle_shape (srv : Server) (env : StepEnv) (c : Conn) (cmd0 arg : String) :
    ((handle srv env c cmd0 arg).1.recipients = c.recipients ∧
      (handle srv env c cmd0 arg).1.fromReceived = c.fromReceived) ∨
    ((handle srv env c cmd0 arg).1.fromReceived = false ∧
      (handle srv env c cmd0 arg).1.recipients = []) ∨
    (handle srv env c cmd0 arg).1.fromReceived = true := by
  unfold handle
  by_cases h0 : cmd0 = ""
  · rw [if_pos h0]; simp
  · rw [if_neg h0]
    dsimp only
    by_cases h1 : toUpperStr cmd0 = "SEND" ∨ toUpperStr cmd0 = "SOML" ∨
        toUpperStr cmd0 = "SAML" ∨ toUpperStr cmd0 = "EXPN" ∨
        toUpperStr cmd0 = "HELP" ∨ toUpperStr cmd0 = "TURN"
    · rw [if_pos h1]; simp
    · rw [if_neg h1]
      by_cases h2 : toUpperStr cmd0 = "HELO" ∨ toUpperStr cmd0 = "EHLO" ∨
          toUpperStr cmd0 = "LHLO"
      · rw [if_pos h2]
        exact Or.inl ⟨(handleGreet_pure srv c _ arg).2, (handleGreet_pure srv c _ arg).1⟩
      · rw [if_neg h2]
        by_cases h3 : toUpperStr cmd0 = "MAIL"
        · rw [if_pos h3]
          rcases handleMail_shape srv env c arg with ⟨hr, hf | hf⟩
          · exact Or.inl ⟨hr, hf⟩
          · exact Or.inr (Or.inr hf)
        · rw [if_neg h3]
          by_cases h4 : toUpperStr cmd0 = "RCPT"
          · rw [if_pos h4]
            rcases handleRcpt_shape srv env c arg with ⟨hr, hf⟩ | hf
            · exact Or.inl ⟨hr, hf⟩
            · exact Or.inr (Or.inr hf)
          · rw [if_neg h4]
            by_cases h5 : toUpperStr cmd0 = "VRFY"
            · rw [if_pos h5]; simp
            · rw [if_neg h5]
              by_cases h6 : toUpperStr cmd0 = "NOOP"
              · rw [if_pos h6]; simp
              · rw [if_neg h6]
                by_cases h7 : toUpperStr cmd0 = "RSET"
                · rw [if_pos h7]; right; left; exact ⟨rfl, rfl⟩
                · rw [if_neg h7]
                  by_cases h8 : toUpperStr cmd0 = "DATA"
                  · rw [if_pos h8]
                    rcases handleData_shape srv env c arg with ⟨hr, hf⟩ | ⟨hf, hr⟩
                    · exact Or.inl ⟨hr, hf⟩
                    · exact Or.inr (Or.inl ⟨hf, hr⟩)
                  · rw [if_neg h8]
                    by_cases h9 : toUpperStr cmd0 = "QUIT"
                    · rw [if_pos h9]; simp
                    · rw [if_neg h9]
                      by_cases h10 : toUpperStr cmd0 = "AUTH"
                      · rw [if_pos h10]
                        by_cases h11 : srv.AuthDisabled
                        · rw [if_pos h11]
                          exact Or.inl ⟨(unrecognizedCommand_pure c _).2,
                            (unrecognizedCommand_pure c _).1⟩
                        · rw [if_neg h11]
                          exact Or.inl ⟨(handleAuth_pure srv env c arg).2,
                            (handleAuth_pure srv env c arg).1⟩
                      · rw [if_neg h10]
                        by_cases h12 : toUpperStr cmd0 = "STARTTLS"
                        · rw [if_pos h12]
                          rcases handleStartTLS_shape srv env c with ⟨hr, hf⟩ | ⟨hf, hr⟩
                          · exact Or.inl ⟨hr, hf⟩
                          · exact Or.inr (Or.inl ⟨hf, hr⟩)
                        · rw [if_neg h12]
                          exact Or.inl ⟨(unrecognizedCommand_pure c _).2,
                            (unrecognizedCommand_pure c _).1⟩

theorem run_invFR (srv : Server) (steps : List (StepEnv × String × String)) :
    (run srv steps initConn).1.fromReceived = false →
      (run srv steps initConn).1.recipients = [] := by
  suffices h : ∀ c : Conn, (c.fromReceived = false → c.recipients = []) →
      ((run srv steps c).1.fromReceived = false → (run srv steps c).1.recipients = []) by
    exact h initConn (fun _ => rfl)
  induction steps with
  | nil => intro c hc; exact hc
  | cons s rest ih =>
    intro c hc
    show (run srv rest (stepConn srv s c).1).1.fromReceived = false →
      (run srv rest (stepConn srv s c).1).1.recipients = []
    refine ih (stepConn srv s c).1 ?_
    unfold stepConn
    split
    · exact hc
    · rcases handle_shape srv s.1 c s.2.1 s.2.2 with ⟨hr, hf⟩ | ⟨hf, hr⟩ | hf
      · intro hx; rw [hr]; exact hc (hf ▸ hx)
      · intro _; exact hr
      · intro hx; rw [hf] at hx; cases hx

/-! ## Claim theorems -/

/-- C6: for every text, the response writer given the not-set enhanced-code
sentinel derives the enhanced code from the base code's hundreds digit —
250 emits `2.0.0`, 421 emits `4.0.0` — and a code given the explicit
no-enhanced-code marker (502 here) emits no enhanced-code segment on the
final line. -/
theorem writeResponseEnhancedDerivation (t : String) :
    WriteResponse 250 EnhancedCodeNotSet [t] = ["250 2.0.0 " ++ t] ∧
    WriteResponse 421 EnhancedCodeNotSet [t] = ["421 4.0.0 " ++ t] ∧
    WriteResponse 502 NoEnhancedCode [t] = ["502 " ++ t] :=
  ⟨rfl, rfl, rfl⟩

/-- C2 counterexample: with strict mode off (`srv0`), after a greeting,
`MAIL FROM:<>` does not succeed: the engine replies 501, no sender-accepted
event occurs, and the sender-set state is not entered — refuting the claim
that the empty bracketed sender is accepted. -/
theorem mailFromEmptyCounterexample :
    replyCodes (run srv0 [(envOk, "EHLO", "a.example"), (envOk, "MAIL", "FROM:<>")]
        initConn).2 = [250, 501] ∧
    (run srv0 [(envOk, "EHLO", "a.example"), (envOk, "MAIL", "FROM:<>")]
        initConn).1.fromReceived = false ∧
    hasMail (run srv0 [(envOk, "EHLO", "a.example"), (envOk, "MAIL", "FROM:<>")]
        initConn).2 = false := by
  decide

/-- C2 amended: `MAIL FROM:<>` is rejected with a 501 syntax reply whatever
the strict-mode setting — the empty resulting address is always rejected —
and the envelope state (`fromReceived`, `recipients`) is unchanged. -/
theorem mailFromEmptyAlwaysRejected (srv : Server) (env : StepEnv) (c : Conn)
    (h1 : c.helo ≠ "") (h2 : c.session = true ∨ env.anonymousLogin = none) :
    (handleMail srv env c "FROM:<>").2 =
      [Event.reply 501 (5, 5, 2) ["Was expecting MAIL arg syntax of FROM:<address>"]] ∧
    (handleMail srv env c "FROM:<>").1.fromReceived = c.fromReceived ∧
    (handleMail srv env c "FROM:<>").1.recipients = c.recipients := by
  have hsplit : splitOnChar ' ' (trimCutset (strDrop "FROM:<>" 5) [' ']) = ["<>"] := by decide
  have hlen : ¬("FROM:<>".length < 6) := by decide
  have hup : toUpperStr (strTake "FROM:<>" 5) = "FROM:" := by decide
  have hsw : startsWithStr "<>" "<" = true := by decide
  have hew : endsWithStr "<>" ">" = true := by decide
  have htr : trimCutset "<>" ['<', '>', ' '] = "" := by decide
  rcases h2 with hs | ha
  · simp [handleMail, h1, hs, hsplit, hlen, hup, hsw, hew, htr]
  · cases hs : c.session <;>
      simp [handleMail, h1, hs, ha, hsplit, hlen, hup, hsw, hew, htr]

/-- Witness for `mailFromEmptyAlwaysRejected` at a concrete greeted
connection. -/
theorem mailFromEmptyAlwaysRejected_witness :
    (({ initConn with helo := "h" } : Conn).helo ≠ "" ∧
      (({ initConn with helo := "h" } : Conn).session = true ∨ envOk.anonymousLogin = none)) ∧
    ((handleMail srv0 envOk { initConn with helo := "h" } "FROM:<>").2 =
        [Event.reply 501 (5, 5, 2) ["Was expecting MAIL arg syntax of FROM:<address>"]] ∧
      (handleMail srv0 envOk { initConn with helo := "h" } "FROM:<>").1.fromReceived =
        ({ initConn with helo := "h" } : Conn).fromReceived ∧
      (handleMail srv0 envOk { initConn with helo := "h" } "FROM:<>").1.recipients =
        ({ initConn with helo := "h" } : Conn).recipients) :=
  ⟨⟨by decide, Or.inr rfl⟩,
    mailFromEmptyAlwaysRejected srv0 envOk { initConn with helo := "h" }
      (by decide) (Or.inr rfl)⟩

/-- C3 counterexample: three consecutive unrecognized commands do NOT close
the connection (the counter reaches only 3, which does not exceed the
threshold of 3), refuting the claim that the third closes it. -/
theorem threeUnrecognizedDoNotClose :
    (run srv0 [(envOk, "XYZZY", ""), (envOk, "XYZZY", ""), (envOk, "XYZZY", "")]
        initConn).1.closed = false ∧
    Event.close ∉ (run srv0 [(envOk, "XYZZY", ""), (envOk, "XYZZY", ""), (envOk, "XYZZY", "")]
        initConn).2 ∧
    (run srv0 [(envOk, "XYZZY", ""), (envOk, "XYZZY", ""), (envOk, "XYZZY", "")]
        initConn).1.nbrErrors = 3 := by
  decide

/-- C3 amended: an unrecognized command increments the counter and the
connection is forcibly closed exactly when the counter exceeds the threshold
of 3 — so the fourth unrecognized command (the counter never resets) closes
the connection, after its 500 reply; three do not. -/
theorem unrecognizedOverThresholdCloses (srv : Server) (env : StepEnv) (c : Conn)
    (cmd arg : String) (hne : cmd ≠ "") (hun : toUpperStr cmd ∉ knownCmds) :
    ((handle srv env c cmd arg).1.nbrErrors = c.nbrErrors + 1 ∧
      ((handle srv env c cmd arg).1.closed =
        if c.nbrErrors + 1 > 3 then true else c.closed) ∧
      (Event.close ∈ (handle srv env c cmd arg).2 ↔ c.nbrErrors + 1 > 3)) ∧
    ((run srv0 [(envOk, "XYZZY", ""), (envOk, "XYZZY", ""), (envOk, "XYZZY", ""),
        (envOk, "XYZZY", "")] initConn).1.closed = true ∧
      (run srv0 [(envOk, "XYZZY", ""), (envOk, "XYZZY", ""), (envOk, "XYZZY", ""),
          (envOk, "XYZZY", "")] initConn).2 =
        [Event.reply 500 (5, 5, 2) ["Syntax error, XYZZY command unrecognized"],
          Event.reply 500 (5, 5, 2) ["Syntax error, XYZZY command unrecognized"],
          Event.reply 500 (5, 5, 2) ["Syntax error, XYZZY command unrecognized"],
          Event.reply 500 (5, 5, 2) ["Syntax error, XYZZY command unrecognized"],
          Event.reply 500 (5, 5, 2) ["Too many unrecognized commands"], Event.close]) := by
  constructor
  · simp only [knownCmds, List.mem_cons, List.mem_singleton, not_or] at hun
    by_cases h : 3 < c.nbrErrors + 1 <;>
      simp [handle, unrecognizedCommand, hne, hun, h]
  · decide

/-- Witness for `unrecognizedOverThresholdCloses` at a concrete command. -/
theorem unrecognizedOverThresholdCloses_witness :
    (("XYZZY" : String) ≠ "" ∧ toUpperStr "XYZZY" ∉ knownCmds) ∧
    ((handle srv0 envOk initConn "XYZZY" "").1.nbrErrors = initConn.nbrErrors + 1 ∧
      ((handle srv0 envOk initConn "XYZZY" "").1.closed =
        if initConn.nbrErrors + 1 > 3 then true else initConn.closed) ∧
      (Event.close ∈ (handle srv0 envOk initConn "XYZZY" "").2 ↔
        initConn.nbrErrors + 1 > 3)) :=
  ⟨⟨by decide, by decide⟩,
    (unrecognizedOverThresholdCloses srv0 envOk initConn "XYZZY" ""
      (by decide) (by decide)).1⟩

/-- C5: when the configured maximum recipient count is already reached, a
syntactically valid recipient command is answered with the 552 reply and the
connection state — in particular the accepted recipient sequence — is left
unchanged; the result does not depend on the session collaborator's answer
(`env` is arbitrary and absent from the result), so the session is not
consulted. -/
theorem rcptLimitRejectedBeforeDelegation (srv : Server) (env : StepEnv) (c : Conn)
    (arg : String) (hf : c.fromReceived = true)
    (hlen : 4 ≤ arg.length) (hto : toUpperStr (strTake arg 3) = "TO:")
    (hmax : 0 < srv.MaxRecipients) (hfull : srv.MaxRecipients ≤ c.recipients.length) :
    handleRcpt srv env c arg =
      (c, [Event.reply 552 (5, 5, 3)
        ["Maximum limit of " ++ Nat.repr srv.MaxRecipients ++ " recipients reached"]]) := by
  have hnl : ¬(arg.length < 4) := by omega
  simp [handleRcpt, hf, hnl, hto, hmax, hfull]

/-- Witness for `rcptLimitRejectedBeforeDelegation`: a server with a limit
of 1 and a connection that already accepted one recipient. -/
theorem rcptLimitRejectedBeforeDelegation_witness :
    (({ initConn with fromReceived := true, recipients := ["v@b.example"] } : Conn).fromReceived
        = true ∧
      4 ≤ ("TO:<w@b.example>" : String).length ∧
      toUpperStr (strTake "TO:<w@b.example>" 3) = "TO:" ∧
      0 < ({ srv0 with MaxRecipients := 1 } : Server).MaxRecipients ∧
      ({ srv0 with MaxRecipients := 1 } : Server).MaxRecipients ≤
        ({ initConn with fromReceived := true, recipients := ["v@b.example"] } : Conn).recipients.length) ∧
    handleRcpt { srv0 with MaxRecipients := 1 } envOk
        { initConn with fromReceived := true, recipients := ["v@b.example"] }
        "TO:<w@b.example>" =
      ({ initConn with fromReceived := true, recipients := ["v@b.example"] },
        [Event.reply 552 (5, 5, 3)
          ["Maximum limit of " ++ Nat.repr ({ srv0 with MaxRecipients := 1 } : Server).MaxRecipients
            ++ " recipients reached"]]) :=
  ⟨⟨by decide, by decide, by decide, by decide, by decide⟩,
    rcptLimitRejectedBeforeDelegation { srv0 with MaxRecipients := 1 } envOk
      { initConn with fromReceived := true, recipients := ["v@b.example"] }
      "TO:<w@b.example>" (by decide) (by decide) (by decide) (by decide) (by decide)⟩

/-- C8: a failed STARTTLS handshake on an eligible connection produces the
220 ready reply followed by the 550 handshake-error reply, does not close
the connection (no close event; the closed flag is unchanged, so the command
loop keeps processing), and — as the source does even on failure — swaps
the transport and resets the envelope. -/
theorem startTlsFailureDoesNotAbort (srv : Server) (env : StepEnv) (c : Conn)
    (h1 : c.isTLS = false) (h2 : srv.TLSConfig = true) (h3 : env.handshakeOk = false) :
    (handleStartTLS srv env c).2 =
      [Event.reply 220 (2, 0, 0) ["Ready to start TLS"],
        Event.reply 550 (5, 0, 0) ["Handshake error"], Event.didReset] ∧
    (handleStartTLS srv env c).1.closed = c.closed ∧
    Event.close ∉ (handleStartTLS srv env c).2 := by
  simp only [handleStartTLS, reset, h1, h2, h3]
  simp

/-- Witness for `startTlsFailureDoesNotAbort` on a fresh connection of a
TLS-configured server. -/
theorem startTlsFailureDoesNotAbort_witness :
    (initConn.isTLS = false ∧ ({ srv0 with TLSConfig := true } : Server).TLSConfig = true ∧
      ({ envOk with handshakeOk := false } : StepEnv).handshakeOk = false) ∧
    ((handleStartTLS { srv0 with TLSConfig := true } { envOk with handshakeOk := false }
          initConn).2 =
        [Event.reply 220 (2, 0, 0) ["Ready to start TLS"],
          Event.reply 550 (5, 0, 0) ["Handshake error"], Event.didReset] ∧
      (handleStartTLS { srv0 with TLSConfig := true } { envOk with handshakeOk := false }
          initConn).1.closed = initConn.closed ∧
      Event.close ∉ (handleStartTLS { srv0 with TLSConfig := true }
          { envOk with handshakeOk := false } initConn).2) :=
  ⟨⟨rfl, rfl, rfl⟩,
    startTlsFailureDoesNotAbort { srv0 with TLSConfig := true }
      { envOk with handshakeOk := false } initConn rfl rfl rfl⟩

/-- C9: a greeting command of the wrong protocol variant (HELO or EHLO on an
LMTP server; LHLO on a non-LMTP server) is answered with a 500 wrong-variant
reply but is still processed as a greeting on the same command line: with a
valid argument the declared identity is updated and a 250 reply follows the
500; with an invalid argument a 501 follows and the connection state is
unchanged. -/
theorem wrongVariantGreetingStillProcessed (srvL srvS : Server) (env : StepEnv)
    (c : Conn) (arg domain : String) (hL : srvL.LMTP = true) (hS : srvS.LMTP = false) :
    (parseHelloArgument arg = some domain →
      (handle srvL env c "HELO" arg).1.helo = domain ∧
      replyCodes (handle srvL env c "HELO" arg).2 = [500, 250] ∧
      (handle srvL env c "EHLO" arg).1.helo = domain ∧
      replyCodes (handle srvL env c "EHLO" arg).2 = [500, 250] ∧
      (handle srvS env c "LHLO" arg).1.helo = domain ∧
      replyCodes (handle srvS env c "LHLO" arg).2 = [500, 250]) ∧
    (parseHelloArgument arg = none →
      (handle srvL env c "HELO" arg).1 = c ∧
      replyCodes (handle srvL env c "HELO" arg).2 = [500, 501] ∧
      (handle srvS env c "LHLO" arg).1 = c ∧
      replyCodes (handle srvS env c "LHLO" arg).2 = [500, 501]) := by
  have eH : ∀ srv : Server, handle srv env c "HELO" arg =
      ((handleGreet srv c false arg).1,
        ((if srv.LMTP = true ∧ ¬(toUpperStr "HELO" = "LHLO") then
            [Event.reply 500 (5, 5, 1) ["This is a LMTP server, use LHLO"]]
          else []) ++
          (if srv.LMTP = false ∧ toUpperStr "HELO" = "LHLO" then
            [Event.reply 500 (5, 5, 1) ["This is not a LMTP server"]]
          else [])) ++
        (handleGreet srv c false arg).2) := fun _ => rfl
  have eE : ∀ srv : Server, handle srv env c "EHLO" arg =
      ((handleGreet srv c true arg).1,
        ((if srv.LMTP = true ∧ ¬(toUpperStr "EHLO" = "LHLO") then
            [Event.reply 500 (5, 5, 1) ["This is a LMTP server, use LHLO"]]
          else []) ++
          (if srv.LMTP = false ∧ toUpperStr "EHLO" = "LHLO" then
            [Event.reply 500 (5, 5, 1) ["This is not a LMTP server"]]
          else [])) ++
        (handleGreet srv c true arg).2) := fun _ => rfl
  have eL : ∀ srv : Server, handle srv env c "LHLO" arg =
      ((handleGreet srv c true arg).1,
        ((if srv.LMTP = true ∧ ¬(toUpperStr "LHLO" = "LHLO") then
            [Event.reply 500 (5, 5, 1) ["This is a LMTP server, use LHLO"]]
          else []) ++
          (if srv.LMTP = false ∧ toUpperStr "LHLO" = "LHLO" then
            [Event.reply 500 (5, 5, 1) ["This is not a LMTP server"]]
          else [])) ++
        (handleGreet srv c true arg).2) := fun _ => rfl
  have hne : ¬(toUpperStr "HELO" = "LHLO") := by decide
  have hne2 : ¬(toUpperStr "EHLO" = "LHLO") := by decide
  have heq : toUpperStr "LHLO" = "LHLO" := by decide
  constructor
  · intro hd
    rw [eH srvL, eE srvL, eL srvS]
    simp [handleGreet, hL, hS, hne, hne2, heq, hd, replyCodes]
  · intro hd
    rw [eH srvL, eL srvS]
    simp [handleGreet, hL, hS, hne, heq, hd, replyCodes]

/-- Witness for `wrongVariantGreetingStillProcessed` with a valid and (via a
second application) an invalid argument. -/
theorem wrongVariantGreetingStillProcessed_witness :
    (({ srv0 with LMTP := true } : Server).LMTP = true ∧ srv0.LMTP = false ∧
      parseHelloArgument "a.example" = some "a.example") ∧
    ((handle { srv0 with LMTP := true } envOk initConn "HELO" "a.example").1.helo
        = "a.example" ∧
      replyCodes (handle { srv0 with LMTP := true } envOk initConn "HELO" "a.example").2
        = [500, 250] ∧
      (handle { srv0 with LMTP := true } envOk initConn "EHLO" "a.example").1.helo
        = "a.example" ∧
      replyCodes (handle { srv0 with LMTP := true } envOk initConn "EHLO" "a.example").2
        = [500, 250] ∧
      (handle srv0 envOk initConn "LHLO" "a.example").1.helo = "a.example" ∧
      replyCodes (handle srv0 envOk initConn "LHLO" "a.example").2 = [500, 250]) :=
  ⟨⟨rfl, rfl, by decide⟩,
    (wrongVariantGreetingStillProcessed { srv0 with LMTP := true } srv0 envOk initConn
      "a.example" "a.example" rfl rfl).1 (by decide)⟩

/-- C10: an AUTH command whose initial response is present but not valid
base64 produces no reply at all and leaves the connection unchanged (the
handler returns before the mechanism lookup — the result holds for every
mechanism table and SASL script). -/
theorem authInvalidBase64SilentReturn (srv : Server) (env : StepEnv) (c : Conn)
    (arg : String) (hd : srv.AuthDisabled = false) (hh : c.helo ≠ "")
    (hp : 2 ≤ (strFields arg).length)
    (hb : base64Decode (((strFields arg).drop 1).headD "") = none) :
    handle srv env c "AUTH" arg = (c, []) := by
  have hred : handle srv env c "AUTH" arg =
      if srv.AuthDisabled = true then unrecognizedCommand c "AUTH"
      else handleAuth srv env c arg := rfl
  rw [hred, if_neg (by simp [hd])]
  rcases l : strFields arg with _ | ⟨a, _ | ⟨b, rest⟩⟩
  · rw [l] at hp; simp at hp
  · rw [l] at hp; simp at hp
  · rw [l] at hb; simp at hb
    simp [handleAuth, hh, l, hb]

/-- Witness for `authInvalidBase64SilentReturn`: `AUTH PLAIN !!!` on a
greeted connection of a server that does know the PLAIN mechanism. -/
theorem authInvalidBase64SilentReturn_witness :
    (({ srv0 with auths := ["PLAIN"] } : Server).AuthDisabled = false ∧
      ({ initConn with helo := "h" } : Conn).helo ≠ "" ∧
      2 ≤ (strFields "PLAIN !!!").length ∧
      base64Decode (((strFields "PLAIN !!!").drop 1).headD "") = none) ∧
    handle { srv0 with auths := ["PLAIN"] } envOk { initConn with helo := "h" }
        "AUTH" "PLAIN !!!" =
      ({ initConn with helo := "h" }, []) :=
  ⟨⟨rfl, by decide, by decide, by decide⟩,
    authInvalidBase64SilentReturn { srv0 with auths := ["PLAIN"] } envOk
      { initConn with helo := "h" } "PLAIN !!!" rfl (by decide) (by decide) (by decide)⟩

/-- C4 (divergence exhibited): after `EHLO a.example` and a successful
STARTTLS handshake, the transport is swapped and the envelope is reset, but
the declared identity survives the upgrade, so the next `MAIL` command —
issued without any new greeting — is accepted with a 250 reply and enters
the sender-set state, although the source's own comment says a new
EHLO/HELO is required after STARTTLS. -/
theorem startTlsNoNewGreetingRequired :
    (run { srv0 with TLSConfig := true }
        [(envOk, "EHLO", "a.example"), (envOk, "STARTTLS", "")] initConn).1.isTLS = true ∧
    (run { srv0 with TLSConfig := true }
        [(envOk, "EHLO", "a.example"), (envOk, "STARTTLS", "")] initConn).1.fromReceived
      = false ∧
    (run { srv0 with TLSConfig := true }
        [(envOk, "EHLO", "a.example"), (envOk, "STARTTLS", "")] initConn).1.recipients = [] ∧
    (run { srv0 with TLSConfig := true }
        [(envOk, "EHLO", "a.example"), (envOk, "STARTTLS", "")] initConn).1.helo
      = "a.example" ∧
    replyCodes (handle { srv0 with TLSConfig := true } envOk
        (run { srv0 with TLSConfig := true }
          [(envOk, "EHLO", "a.example"), (envOk, "STARTTLS", "")] initConn).1
        "MAIL" "FROM:<u@a.example>").2 = [250] ∧
    (handle { srv0 with TLSConfig := true } envOk
        (run { srv0 with TLSConfig := true }
          [(envOk, "EHLO", "a.example"), (envOk, "STARTTLS", "")] initConn).1
        "MAIL" "FROM:<u@a.example>").1.fromReceived = true := by
  decide


/-- C1 counterexample: on the trace `EHLO`, `MAIL`, `MAIL`, `RCPT` (all
accepted), two sender-accepted events and one recipient-accepted event have
occurred since the last greeting with no reset at all, yet the following
DATA command is accepted (354) — refuting the "exactly one sender-accepted
event" condition of the claim. -/
theorem dataGateExactlyOnceCounterexample :
    mailCount (claimWindow (run srv0 [(envOk, "EHLO", "a.example"),
        (envOk, "MAIL", "FROM:<u@a.example>"), (envOk, "MAIL", "FROM:<w@a.example>"),
        (envOk, "RCPT", "TO:<v@b.example>")] initConn).2) = 2 ∧
    rcptCount (claimWindow (run srv0 [(envOk, "EHLO", "a.example"),
        (envOk, "MAIL", "FROM:<u@a.example>"), (envOk, "MAIL", "FROM:<w@a.example>"),
        (envOk, "RCPT", "TO:<v@b.example>")] initConn).2) = 1 ∧
    Event.didReset ∉ (run srv0 [(envOk, "EHLO", "a.example"),
        (envOk, "MAIL", "FROM:<u@a.example>"), (envOk, "MAIL", "FROM:<w@a.example>"),
        (envOk, "RCPT", "TO:<v@b.example>")] initConn).2 ∧
    Event.reply 354 (2, 0, 0) ["Go ahead. End your data with <CR><LF>.<CR><LF>"]
      ∈ (handle srv0 envOk (run srv0 [(envOk, "EHLO", "a.example"),
          (envOk, "MAIL", "FROM:<u@a.example>"), (envOk, "MAIL", "FROM:<w@a.example>"),
          (envOk, "RCPT", "TO:<v@b.example>")] initConn).1 "DATA" "").2 := by
  decide

/-- C1 amended: on a live connection, a DATA command with no argument is
accepted (reply 354, entering the data phase) if and only if at least one
sender-accepted event and at least one recipient-accepted event have
occurred since the last reset (explicit RSET, post-DATA reset, or
post-upgrade reset); greetings do not bound the window, and repeated
sender commands are permitted. -/
theorem dataAcceptedIffEnvelope (srv : Server) (steps : List (StepEnv × String × String))
    (env : StepEnv) (h : (run srv steps initConn).1.closed = false) :
    (Event.reply 354 (2, 0, 0) ["Go ahead. End your data with <CR><LF>.<CR><LF>"]
        ∈ (handle srv env (run srv steps initConn).1 "DATA" "").2)
      ↔ (1 ≤ mailCount (sinceLastReset (run srv steps initConn).2) ∧
          1 ≤ rcptCount (sinceLastReset (run srv steps initConn).2)) := by
  have hs := run_envelope_slr srv steps
  have hfr : (run srv steps initConn).1.fromReceived
      = hasMail (sinceLastReset (run srv steps initConn).2) := congrArg Prod.fst hs
  have hlen : (run srv steps initConn).1.recipients.length
      = rcptCount (sinceLastReset (run srv steps initConn).2) := congrArg Prod.snd hs
  have hred : handle srv env (run srv steps initConn).1 "DATA" ""
      = handleData srv env (run srv steps initConn).1 "" := rfl
  rw [hred]
  unfold handleData
  rw [if_neg (by simp)]
  by_cases hcond : (run srv steps initConn).1.fromReceived = false ∨
      (run srv steps initConn).1.recipients.length = 0
  · rw [if_pos hcond]
    simp only [List.mem_singleton]
    constructor
    · intro hmem; cases hmem
    · rintro ⟨hm, hr⟩
      exfalso
      rcases hcond with h1 | h2
      · rw [hfr] at h1
        have := (hasMail_iff _).mpr hm
        rw [h1] at this
        cases this
      · rw [hlen] at h2
        omega
  · rw [if_neg hcond]
    push_neg at hcond
    obtain ⟨h1, h2⟩ := hcond
    have h1' : hasMail (sinceLastReset (run srv steps initConn).2) = true := by
      rw [← hfr]
      exact Bool.not_eq_false _ |>.mp h1
    refine iff_of_true (List.mem_cons_self _ _) ⟨(hasMail_iff _).mp h1', ?_⟩
    rw [hlen] at h2
    omega

/-- Witness for `dataAcceptedIffEnvelope` on the fresh connection. -/
theorem dataAcceptedIffEnvelope_witness :
    ((run srv0 [] initConn).1.closed = false) ∧
    ((Event.reply 354 (2, 0, 0) ["Go ahead. End your data with <CR><LF>.<CR><LF>"]
        ∈ (handle srv0 envOk (run srv0 [] initConn).1 "DATA" "").2)
      ↔ (1 ≤ mailCount (sinceLastReset (run srv0 [] initConn).2) ∧
          1 ≤ rcptCount (sinceLastReset (run srv0 [] initConn).2))) :=
  ⟨rfl, dataAcceptedIffEnvelope srv0 [] envOk rfl⟩

/-- C7: on every reachable connection state in which no sender command has
succeeded since the last reset, a RCPT command is answered with exactly
`502 5.5.1 Missing MAIL FROM command.`, the connection state is unchanged
and — whatever `env` says, so the session collaborator's verdict is never
consulted — the recipient sequence is empty. -/
theorem rcptBeforeMailRejected (srv : Server) (steps : List (StepEnv × String × String))
    (env : StepEnv) (arg : String)
    (h : (run srv steps initConn).1.fromReceived = false) :
    handle srv env (run srv steps initConn).1 "RCPT" arg
      = ((run srv steps initConn).1,
          [Event.reply 502 (5, 5, 1) ["Missing MAIL FROM command."]]) ∧
    (run srv steps initConn).1.recipients = [] := by
  constructor
  · have hred : handle srv env (run srv steps initConn).1 "RCPT" arg
        = handleRcpt srv env (run srv steps initConn).1 arg := rfl
    rw [hred]
    unfold handleRcpt
    rw [if_pos h]
  · exact run_invFR srv steps h

/-- Witness for `rcptBeforeMailRejected` on the fresh connection. -/
theorem rcptBeforeMailRejected_witness :
    ((run srv0 [] initConn).1.fromReceived = false) ∧
    (handle srv0 envOk (run srv0 [] initConn).1 "RCPT" "TO:<v@b.example>"
        = ((run srv0 [] initConn).1,
            [Event.reply 502 (5, 5, 1) ["Missing MAIL FROM command."]]) ∧
      (run srv0 [] initConn).1.recipients = []) :=
  ⟨rfl, rcptBeforeMailRejected srv0 [] envOk "TO:<v@b.example>" rfl⟩

end GoSmtp
